import Mathlib

/-!
Verification of the fraud-signal engine of the `hippocratic` repository.

The definitions below are a shallow embedding of the Python source:
* `normalize_phone`, `normalize_address`, `normalize_text` embed the
  attribute normalizer of `src/analysis/network_analysis.py`;
* `facilityNodeList` / `facilityEdgeList` / `networkNodes` / `networkEdges`
  embed `build_network`;
* `scoreCluster` embeds `compute_fraud_scores` restricted to one component;
* `detectHighRevenueLowPatients` embeds
  `FinancialAnalyzer.detect_high_revenue_low_patients`;
* `save_fraud_alerts` embeds `FinancialAnalyzer.save_fraud_alerts`
  acting on a pure model of the `fraud_alerts` table;
* `y_pseudo` / `agreement_count` embed the majority-vote pseudo-labeling
  of `src/ml_fraud_detector.py`.

Python floats are modelled as exact rationals (the computations involved
are sums, means and products of decimal constants), Python `int` as `Int`,
and `None` as `Option`. Python string operations are modelled on the
character list of the string so that every definition evaluates inside
the kernel.
-/

namespace Hippocratic

/-- Python `str.lower()` (ASCII range, the range the data uses). -/
def pyLower (s : String) : String := String.mk (s.toList.map Char.toLower)

/-- Python `str.strip()`: drop leading and trailing whitespace. -/
def pyStrip (s : String) : String :=
  String.mk (((s.toList.dropWhile Char.isWhitespace).reverse.dropWhile
    Char.isWhitespace).reverse)

/-- Python `s[:n]`: the first `n` characters. -/
def pyTake (s : String) (n : Nat) : String := String.mk (s.toList.take n)

/-- Python truthiness of a string: non-empty. -/
def pyTruthy (s : String) : Bool := !s.toList.isEmpty

/-- Python `len` of a string: its number of characters. -/
def pyLen (s : String) : Nat := s.toList.length

/-- Python `c in s` for a single character `c`. -/
def pyHasChar (s : String) (c : Char) : Bool := s.toList.contains c

/-- Python `s.startswith(p)`. -/
def pyStarts (s p : String) : Bool := p.toList.isPrefixOf s.toList

/-- Python `"|".join(parts)` (the fixed delimiter of `normalize_address`). -/
def joinBar : List String → String
  | [] => ""
  | [s] => s
  | s :: rest => s ++ "|" ++ joinBar rest

/-- Embeds `normalize_phone` of `network_analysis.py`: keep only the ASCII
digits of the input; the result stands if at least 10 digits remain.
A `none` or empty input (falsy in Python) yields `none`. -/
def normalize_phone (phone : Option String) : Option String :=
  match phone with
  | none => none
  | some s =>
    if pyTruthy s then
      let digits := String.mk (s.toList.filter Char.isDigit)
      if 10 ≤ pyLen digits then some digits else none
    else none

/-- Embeds `normalize_address` of `network_analysis.py`: collect the present
(truthy) components — address and city lower-cased and stripped, zip stripped
and cut to 5 characters — and join them with `"|"`; `none` when no component
is present. -/
def normalize_address (address city zip_code : Option String) : Option String :=
  let parts : List String :=
    (match address with
     | some a => if pyTruthy a then [pyStrip (pyLower a)] else []
     | none => []) ++
    (match city with
     | some c => if pyTruthy c then [pyStrip (pyLower c)] else []
     | none => []) ++
    (match zip_code with
     | some z => if pyTruthy z then [pyTake (pyStrip z) 5] else []
     | none => [])
  if parts.isEmpty then none else some (joinBar parts)

/-- Embeds `normalize_text` of `network_analysis.py`: lower-case and strip;
the result stands only if its length exceeds 2. -/
def normalize_text (text : Option String) : Option String :=
  match text with
  | none => none
  | some s =>
    if pyTruthy s then
      let normalized := pyStrip (pyLower s)
      if 2 < pyLen normalized then some normalized else none
    else none

/-! ## Graph builder (`build_network`) -/

/-- An input facility record, the fields `build_network` reads. -/
structure Facility where
  id : Option String
  businessName : Option String
  contactEmail : Option String
  phone : Option String
  address : Option String
  city : Option String
  zip : Option String
  deriving DecidableEq, Repr

/-- The owner node name contributed by one facility record, when any:
`normalize_text` of the business name. -/
def ownerNodeOf (f : Facility) : Option String :=
  match normalize_text f.businessName with
  | some owner => some ("owner:" ++ owner)
  | none => none

/-- The admin node name contributed by one facility record, when any:
`normalize_text` of the contact email, kept only when it contains `'@'`. -/
def adminNodeOf (f : Facility) : Option String :=
  match normalize_text f.contactEmail with
  | some admin => if pyHasChar admin '@' then some ("admin:" ++ admin) else none
  | none => none

/-- The phone node name contributed by one facility record, when any. -/
def phoneNodeOf (f : Facility) : Option String :=
  match normalize_phone f.phone with
  | some phone => some ("phone:" ++ phone)
  | none => none

/-- The address node name contributed by one facility record, when any:
`normalize_address` of (address, city, zip), kept only when truthy. -/
def addrNodeOf (f : Facility) : Option String :=
  match normalize_address f.address f.city f.zip with
  | some addr => if pyTruthy addr then some ("addr:" ++ addr) else none
  | none => none

/-- A facility record is processed only when its id is present and truthy
(`if not fac_id: continue`). -/
def facKey (f : Facility) : Option String :=
  match f.id with
  | some i => if pyTruthy i then some ("fac:" ++ i) else none
  | none => none

/-- The node names one facility record adds to the graph. -/
def facilityNodeList (f : Facility) : List String :=
  match facKey f with
  | none => []
  | some fk =>
    fk :: ((ownerNodeOf f).toList ++ (adminNodeOf f).toList ++
      (phoneNodeOf f).toList ++ (addrNodeOf f).toList)

/-- The (facility node, attribute node) edges one facility record adds. -/
def facilityEdgeList (f : Facility) : List (String × String) :=
  match facKey f with
  | none => []
  | some fk =>
    ((ownerNodeOf f).toList ++ (adminNodeOf f).toList ++
      (phoneNodeOf f).toList ++ (addrNodeOf f).toList).map (fun a => (fk, a))

/-- All node names of the graph `build_network` builds (as a list whose
membership is the node set; `nx.Graph` deduplicates re-added nodes). -/
def networkNodes (facilities : List Facility) : List String :=
  facilities.flatMap facilityNodeList

/-- All edges of the graph `build_network` builds, each recorded as
(facility node, attribute node); the graph is undirected and simple. -/
def networkEdges (facilities : List Facility) : List (String × String) :=
  facilities.flatMap facilityEdgeList

/-- One undirected step along an edge of the graph. -/
def stepRel (facilities : List Facility) (a b : String) : Prop :=
  (a, b) ∈ networkEdges facilities ∨ (b, a) ∈ networkEdges facilities

/-- Connectivity in the graph: the reflexive-transitive closure of
`stepRel`, as `nx.connected_components` computes it. -/
def reach (facilities : List Facility) : String → String → Prop :=
  Relation.ReflTransGen (stepRel facilities)

/-- The connected component of a node. -/
def componentOf (facilities : List Facility) (n : String) : Set String :=
  {m | reach facilities n m}

/-- The connected-component partition of the graph, as a set of components. -/
def componentPartition (facilities : List Facility) : Set (Set String) :=
  {C | ∃ n ∈ networkNodes facilities, C = componentOf facilities n}

/-! ## Cluster scorer (`compute_fraud_scores`)

The scorer reads, for each node of a component, only its name prefix and
the financial attributes stored on facility nodes (`G.nodes[n]`); we pass
those attributes as a lookup `data : String → NodeData` and the component
as a list of node names. -/

/-- The financial attributes `build_network` stores on a facility node. -/
structure NodeData where
  revenue : Option Int
  net_income : Option Int
  visits : Option Int
  deriving DecidableEq, Repr

/-- `[n for n in comp if n.startswith("fac:")]`. -/
def facMembers (comp : List String) : List String :=
  comp.filter (fun n => pyStarts n "fac:")

/-- `[n for n in comp if n.startswith("owner:")]`. -/
def ownerMembers (comp : List String) : List String :=
  comp.filter (fun n => pyStarts n "owner:")

/-- `[n for n in comp if n.startswith("admin:")]`. -/
def adminMembers (comp : List String) : List String :=
  comp.filter (fun n => pyStarts n "admin:")

/-- `[n for n in comp if n.startswith("phone:")]`. -/
def phoneMembers (comp : List String) : List String :=
  comp.filter (fun n => pyStarts n "phone:")

/-- `[n for n in comp if n.startswith("addr:")]`. -/
def addrMembers (comp : List String) : List String :=
  comp.filter (fun n => pyStarts n "addr:")

/-- `revenues`: the truthy (non-null, non-zero) revenues of the facility
members, in order. -/
def clusterRevenues (data : String → NodeData) (comp : List String) : List Int :=
  (facMembers comp).filterMap (fun n =>
    match (data n).revenue with
    | some r => if r = 0 then none else some r
    | none => none)

/-- `net_incomes`: the non-null net incomes of the facility members. -/
def clusterNetIncomes (data : String → NodeData) (comp : List String) : List Int :=
  (facMembers comp).filterMap (fun n => (data n).net_income)

/-- `visits_list`: the truthy visit counts of the facility members. -/
def clusterVisits (data : String → NodeData) (comp : List String) : List Int :=
  (facMembers comp).filterMap (fun n =>
    match (data n).visits with
    | some v => if v = 0 then none else some v
    | none => none)

/-- `total_revenue = sum(revenues) if revenues else 0`. -/
def total_revenue (data : String → NodeData) (comp : List String) : Int :=
  (clusterRevenues data comp).sum

/-- `total_visits = sum(visits_list) if visits_list else 0`. -/
def total_visits (data : String → NodeData) (comp : List String) : Int :=
  (clusterVisits data comp).sum

/-- `avg_revenue = np.mean(revenues) if revenues else 0`. -/
def avg_revenue (data : String → NodeData) (comp : List String) : ℚ :=
  if clusterRevenues data comp = [] then 0
  else ((total_revenue data comp : ℚ)) / ((clusterRevenues data comp).length : ℚ)

/-- `shared_types`: of the three attribute types phones, addresses, admins,
how many are present in the component with strictly fewer distinct values
than there are facilities. -/
def shared_types (comp : List String) : Nat :=
  (if 0 < (phoneMembers comp).length ∧
      (phoneMembers comp).length < (facMembers comp).length then 1 else 0) +
  (if 0 < (addrMembers comp).length ∧
      (addrMembers comp).length < (facMembers comp).length then 1 else 0) +
  (if 0 < (adminMembers comp).length ∧
      (adminMembers comp).length < (facMembers comp).length then 1 else 0)

/-- `high_revenue_factor`: starts at 1.0, raised to 1.5 above $10M total
revenue, then to 2.0 above $50M (two sequential `if`s in the source). -/
def high_revenue_factor (data : String → NodeData) (comp : List String) : ℚ :=
  let hrf0 : ℚ := 1
  let hrf1 : ℚ := if 10000000 < total_revenue data comp then 3/2 else hrf0
  if 50000000 < total_revenue data comp then 2 else hrf1

/-- `negative_income_factor`: 1.2 when `net_incomes` is non-empty and some
entry is negative, else 1.0. -/
def negative_income_factor (data : String → NodeData) (comp : List String) : ℚ :=
  if clusterNetIncomes data comp ≠ [] ∧
      (clusterNetIncomes data comp).any (fun ni => ni < 0) then 6/5 else 1

/-- `score = fac_count * (1 + shared_types * 0.5) * high_revenue_factor *
negative_income_factor`. -/
def clusterScore (data : String → NodeData) (comp : List String) : ℚ :=
  ((facMembers comp).length : ℚ) * (1 + (shared_types comp : ℚ) * (1/2)) *
    high_revenue_factor data comp * negative_income_factor data comp

/-- The RiskScore entry `compute_fraud_scores` records for a cluster. -/
structure RiskScore where
  score : ℚ
  facilities : Nat
  shared_owners : Nat
  shared_admins : Nat
  shared_phones : Nat
  shared_addresses : Nat
  total_revenue : Int
  avg_revenue : ℚ
  total_visits : Int
  has_negative_income : Bool
  deriving DecidableEq, Repr

/-- One iteration of the `compute_fraud_scores` loop: components with fewer
than 2 facility nodes are skipped, the score is computed, and an entry is
emitted only when the score exceeds 3. -/
def scoreCluster (data : String → NodeData) (comp : List String) : Option RiskScore :=
  if (facMembers comp).length < 2 then none
  else if 3 < clusterScore data comp then
    some {
      score := clusterScore data comp
      facilities := (facMembers comp).length
      shared_owners := (ownerMembers comp).length
      shared_admins := (adminMembers comp).length
      shared_phones := (phoneMembers comp).length
      shared_addresses := (addrMembers comp).length
      total_revenue := total_revenue data comp
      avg_revenue := avg_revenue data comp
      total_visits := total_visits data comp
      has_negative_income := (clusterNetIncomes data comp).any (fun ni => ni < 0)
    }
  else none

/-! ## Statistical outlier detector
(`FinancialAnalyzer.detect_high_revenue_low_patients`)

The SQL join row carries `total_revenue` (a REAL column, modelled as ℚ)
and `total_visits` (INTEGER); the query keeps rows where both are non-null
and positive and computes `revenue_per_visit = revenue / visits` (real
division, `NULLIF` never fires since visits > 0). `statistics.stdev` takes
a square root; the model abstracts the square-root function as a parameter
`sqrtQ`, which the theorems constrain only by `sqrtQ 0 = 0`. -/

/-- One row of the `facilities ⋈ financials` join. -/
structure FinJoinRow where
  facility_id : Int
  revenue : Option ℚ
  visits : Option Int
  deriving DecidableEq, Repr

/-- A fetched record of the query: positive revenue and visits, with its
`revenue_per_visit` column. -/
structure HRRecord where
  facility_id : Int
  revenue : ℚ
  visits : Int
  revenue_per_visit : ℚ
  deriving DecidableEq, Repr

/-- The record the SQL query yields for one join row, when the row has
non-null, strictly positive revenue and visits. -/
def mkHRRecord (r : FinJoinRow) : Option HRRecord :=
  match r.revenue, r.visits with
  | some rev, some vis =>
    if 0 < rev ∧ 0 < vis then
      some ⟨r.facility_id, rev, vis, rev / (vis : ℚ)⟩
    else none
  | _, _ => none

/-- The records the SQL query returns: rows with non-null, strictly
positive revenue and visits. -/
def hrRecords (rows : List FinJoinRow) : List HRRecord :=
  rows.filterMap mkHRRecord

/-- `statistics.mean`. -/
def listMean (xs : List ℚ) : ℚ := xs.sum / (xs.length : ℚ)

/-- The sample variance (divisor `n - 1`) whose square root is
`statistics.stdev`. -/
def sampleVariance (xs : List ℚ) : ℚ :=
  (xs.map (fun x => (x - listMean xs) ^ 2)).sum / ((xs.length : ℚ) - 1)

/-- An alert of `detect_high_revenue_low_patients`. -/
structure OutlierAlert where
  facility_id : Int
  revenue : ℚ
  visits : Int
  revenue_per_visit : ℚ
  z_score : ℚ
  severity : String
  deriving DecidableEq, Repr

/-- Insert into a list kept sorted by `|z_score|` descending. -/
def insertByZ (a : OutlierAlert) : List OutlierAlert → List OutlierAlert
  | [] => [a]
  | b :: rest =>
    if |b.z_score| ≤ |a.z_score| then a :: b :: rest else b :: insertByZ a rest

/-- `alerts.sort(key=lambda x: abs(x['z_score']), reverse=True)`. -/
def sortByZDesc (l : List OutlierAlert) : List OutlierAlert := l.foldr insertByZ []

/-- Embeds `detect_high_revenue_low_patients`: z-score outliers of
revenue-per-visit over the positive-revenue, positive-visit population.
`sqrtQ` stands for the square root used by `statistics.stdev`;
`threshold` defaults to 2 in the source. -/
def detect_high_revenue_low_patients (sqrtQ : ℚ → ℚ) (threshold : ℚ)
    (rows : List FinJoinRow) : List OutlierAlert :=
  let records := hrRecords rows
  if records.isEmpty then []
  else
    let rev_per_visits := (records.map (fun r => r.revenue_per_visit)).filter
      (fun x => x ≠ 0)
    if rev_per_visits.isEmpty then []
    else
      let mean := listMean rev_per_visits
      let stdev := if 1 < rev_per_visits.length then
        sqrtQ (sampleVariance rev_per_visits) else 0
      let alerts := records.filterMap (fun r =>
        if r.revenue_per_visit ≠ 0 then
          let z := if 0 < stdev then (r.revenue_per_visit - mean) / stdev else 0
          if threshold < |z| then
            some ⟨r.facility_id, r.revenue, r.visits, r.revenue_per_visit, z,
              if 3 < |z| then "high" else "medium"⟩
          else none
        else none)
      sortByZDesc alerts

/-! ## Persisted alert sink (`FinancialAnalyzer.save_fraud_alerts`)

The `fraud_alerts` table is modelled as a list of rows in rowid order;
`DELETE ... WHERE status = 'new'` keeps exactly the other rows in order,
and each `INSERT` appends a row whose `status` takes the column default
`'new'`. The free-text `description`/`metrics` columns, which no claim
mentions, are carried as given strings on the incoming alerts. -/

/-- A row of the `fraud_alerts` table (the columns the claims touch). -/
structure AlertRow where
  alert_type : String
  severity : String
  facility_id : Int
  facility_name : String
  status : String
  deriving DecidableEq, Repr

/-- An alert of the high-revenue-per-patient detector, as consumed by
`save_fraud_alerts`. -/
structure HighAlert where
  facility_id : Int
  facility_name : String
  severity : String
  deriving DecidableEq, Repr

/-- An alert of the extreme-profit-margin detector, as consumed by
`save_fraud_alerts`. -/
structure MarginAlert where
  facility_id : Int
  facility_name : String
  severity : String
  deriving DecidableEq, Repr

/-- The row inserted for a high-revenue alert: `status` takes the column
default `'new'`. -/
def mkHighRow (a : HighAlert) : AlertRow :=
  { alert_type := "high_revenue_per_patient", severity := a.severity,
    facility_id := a.facility_id, facility_name := a.facility_name,
    status := "new" }

/-- The row inserted for an extreme-margin alert. -/
def mkMarginRow (a : MarginAlert) : AlertRow :=
  { alert_type := "extreme_profit_margin", severity := a.severity,
    facility_id := a.facility_id, facility_name := a.facility_name,
    status := "new" }

/-- Embeds `save_fraud_alerts`: delete the rows whose status is `'new'`,
then insert a row per current-run alert. -/
def save_fraud_alerts (table : List AlertRow) (high : List HighAlert)
    (margins : List MarginAlert) : List AlertRow :=
  (table.filter (fun r => r.status != "new")) ++
    high.map mkHighRow ++ margins.map mkMarginRow

/-! ## Pseudo-label voter (`ml_fraud_detector.py`)

`create_pseudo_labels` and `run_ensemble_voting` both combine the 0/1
predictions of the three unsupervised detectors per facility; we model one
facility's three binary flags. -/

/-- A detector's 0/1 prediction for one facility. -/
def predVal (b : Bool) : Nat := if b then 1 else 0

/-- `agreement_count = predictions.sum(axis=0)` for one facility. -/
def agreement_count (p1 p2 p3 : Bool) : Nat :=
  predVal p1 + predVal p2 + predVal p3

/-- `y_pseudo = ((pred_if + pred_lof + pred_ecod) >= 2).astype(int)` for
one facility. -/
def y_pseudo (p1 p2 p3 : Bool) : Nat :=
  if 2 ≤ predVal p1 + predVal p2 + predVal p3 then 1 else 0

/-! ## Claim-side definitions

These definitions follow the wording of the spec's claims (set
cardinalities over the component, null-as-0 sums, …); the theorems below
compare them with the source-side definitions above. -/

/-- The number of facility nodes of a component, as a set cardinality. -/
def facCardSpec (comp : List String) : Nat :=
  (comp.toFinset.filter (fun n => pyStarts n "fac:")).card

/-- The number of attribute nodes with name prefix `p`, as a set
cardinality. -/
def attrCardSpec (comp : List String) (p : String) : Nat :=
  (comp.toFinset.filter (fun n => pyStarts n p)).card

/-- Claim C1's `shared_types`: over phones, addresses, admins, count the
types whose attribute-node set is non-empty with cardinality strictly
below the facility count. -/
def sharedTypesSpec (comp : List String) : Nat :=
  (if attrCardSpec comp "phone:" ≠ 0 ∧
      attrCardSpec comp "phone:" < facCardSpec comp then 1 else 0) +
  (if attrCardSpec comp "addr:" ≠ 0 ∧
      attrCardSpec comp "addr:" < facCardSpec comp then 1 else 0) +
  (if attrCardSpec comp "admin:" ≠ 0 ∧
      attrCardSpec comp "admin:" < facCardSpec comp then 1 else 0)

/-- Claim C3's `total_revenue`: the sum of the member facilities' revenues
with nulls treated as 0. -/
def totalRevenueSpec (data : String → NodeData) (comp : List String) : Int :=
  (comp.toFinset.filter (fun n => pyStarts n "fac:")).sum
    (fun n => ((data n).revenue).getD 0)

/-- Claim C3's `total_visits`: the sum of the member facilities' visit
counts with nulls treated as 0. -/
def totalVisitsSpec (data : String → NodeData) (comp : List String) : Int :=
  (comp.toFinset.filter (fun n => pyStarts n "fac:")).sum
    (fun n => ((data n).visits).getD 0)

/-- Whether some member facility has a non-null, strictly negative net
income. -/
def hasNegIncomeSpec (data : String → NodeData) (comp : List String) : Bool :=
  comp.any (fun n => pyStarts n "fac:" &&
    (match (data n).net_income with
     | some v => decide (v < 0)
     | none => false))

/-- Claim C1's `high_revenue_factor`: 2.0 above $50M total revenue, else
1.5 above $10M, else 1.0. -/
def hrfSpec (data : String → NodeData) (comp : List String) : ℚ :=
  if 50000000 < totalRevenueSpec data comp then 2
  else if 10000000 < totalRevenueSpec data comp then 3/2
  else 1

/-- Claim C1's `negative_income_factor`: 1.2 when some member facility has
negative net income, else 1.0. -/
def nifSpec (data : String → NodeData) (comp : List String) : ℚ :=
  if hasNegIncomeSpec data comp then 6/5 else 1

/-- Claim C1's score formula:
`facility_count × (1 + shared_types × 0.5) × high_revenue_factor ×
negative_income_factor`. -/
def scoreSpec (data : String → NodeData) (comp : List String) : ℚ :=
  (facCardSpec comp : ℚ) * (1 + (sharedTypesSpec comp : ℚ) * (1/2)) *
    hrfSpec data comp * nifSpec data comp

/-- Claim C3's `avg_revenue`: the arithmetic mean over the member
facilities whose revenue is non-null, zeros included. -/
def nonNullRevenues (data : String → NodeData) (comp : List String) : List Int :=
  (facMembers comp).filterMap (fun n => (data n).revenue)

/-- The mean of the non-null revenues (0 when there are none), as claim C3
states `avg_revenue`. -/
def avgRevenueClaim (data : String → NodeData) (comp : List String) : ℚ :=
  if nonNullRevenues data comp = [] then 0
  else ((nonNullRevenues data comp).sum : ℚ) / ((nonNullRevenues data comp).length : ℚ)

/-- The member facilities with non-null, non-zero revenue (as a set). -/
def truthyRevFacs (data : String → NodeData) (comp : List String) : Finset String :=
  comp.toFinset.filter (fun n => pyStarts n "fac:" && ((data n).revenue.getD 0 ≠ 0))

/-- The amended `avg_revenue`: the mean over the member facilities whose
revenue is non-null **and non-zero** (0 when there are none). -/
def avgRevenueAmended (data : String → NodeData) (comp : List String) : ℚ :=
  if (truthyRevFacs data comp).card = 0 then 0
  else (((truthyRevFacs data comp).sum (fun n => (data n).revenue.getD 0) : Int) : ℚ) /
    ((truthyRevFacs data comp).card : ℚ)

/-- Claim C7's address normalizer, written from the claim's words:
lower-case and trim **every** present component — the zip included — and
truncate the zip to 5 characters. -/
def normalize_address_claim (address city zip_code : Option String) : Option String :=
  let parts : List String :=
    (match address with
     | some a => if pyTruthy a then [pyStrip (pyLower a)] else []
     | none => []) ++
    (match city with
     | some c => if pyTruthy c then [pyStrip (pyLower c)] else []
     | none => []) ++
    (match zip_code with
     | some z => if pyTruthy z then [pyTake (pyStrip (pyLower z)) 5] else []
     | none => [])
  if parts.isEmpty then none else some (joinBar parts)

/-- The amended claim C7's address normalizer: as `normalize_address_claim`
but the zip component is only trimmed and truncated to 5 characters,
not lower-cased. -/
def normalize_address_amended (address city zip_code : Option String) : Option String :=
  let parts : List String :=
    (match address with
     | some a => if pyTruthy a then [pyStrip (pyLower a)] else []
     | none => []) ++
    (match city with
     | some c => if pyTruthy c then [pyStrip (pyLower c)] else []
     | none => []) ++
    (match zip_code with
     | some z => if pyTruthy z then [pyTake (pyStrip z) 5] else []
     | none => [])
  if parts.isEmpty then none else some (joinBar parts)

/-- Claim C2 as stated: every facility with a present id gets, for each of
the four attribute types, an edge to the normalized value whenever that
value is non-null. -/
def allFourTypesEdgeClaim (facilities : List Facility) : Prop :=
  ∀ f ∈ facilities, ∀ i, f.id = some i → pyTruthy i →
    (∀ o, normalize_text f.businessName = some o →
      ("fac:" ++ i, "owner:" ++ o) ∈ networkEdges facilities) ∧
    (∀ a, normalize_text f.contactEmail = some a →
      ("fac:" ++ i, "admin:" ++ a) ∈ networkEdges facilities) ∧
    (∀ p, normalize_phone f.phone = some p →
      ("fac:" ++ i, "phone:" ++ p) ∈ networkEdges facilities) ∧
    (∀ ad, normalize_address f.address f.city f.zip = some ad →
      ("fac:" ++ i, "addr:" ++ ad) ∈ networkEdges facilities)

/-! ## Concrete fixtures used by counterexamples and witnesses -/

/-- A facility whose street address is a single blank. -/
def facW1 : Facility :=
  ⟨some "1", none, none, none, some " ", some "LA", some "90001"⟩

/-- A facility whose street address is two blanks, same city and zip. -/
def facW2 : Facility :=
  ⟨some "2", none, none, none, some "  ", some "LA", some "90001"⟩

/-- A facility whose only present attribute fields are whitespace. -/
def facW3 : Facility := ⟨some "3", none, none, none, some " ", none, none⟩

/-- A facility whose contact email normalizes to a value without `'@'` and
whose address key normalizes to the empty string. -/
def facBad : Facility := ⟨some "9", none, some "abc", none, some " ", none, none⟩

/-- A facility with all four attribute types present and linkable. -/
def facFull : Facility :=
  ⟨some "1", some "acme corp", some "a@b.com", some "(415) 555-0199",
    some "1 Main St", some "LA", some "90001"⟩

/-- Two facilities sharing an owner, for the order-independence witness. -/
def facA : Facility := ⟨some "1", some "acme corp", none, none, none, none, none⟩

/-- Second facility of the order-independence witness. -/
def facB : Facility := ⟨some "2", some "acme corp", none, none, none, none, none⟩

/-- A three-facility component sharing one phone node. -/
def comp3 : List String := ["fac:1", "fac:2", "fac:3", "phone:5551234567"]

/-- Node attributes for `comp3`: one zero revenue, one revenue of 10, one
null revenue. -/
def data3 : String → NodeData := fun n =>
  if n = "fac:1" then ⟨some 0, none, none⟩
  else if n = "fac:2" then ⟨some 10, none, none⟩
  else ⟨none, none, none⟩

/-- The RiskScore entry `compute_fraud_scores` emits for `comp3`/`data3`. -/
def rs3 : RiskScore := ⟨9/2, 3, 0, 0, 1, 0, 10, 10, 0, false⟩

/-- All-null node attributes. -/
def dataNone : String → NodeData := fun _ => ⟨none, none, none⟩

/-- A three-facility component with no attribute nodes. -/
def compThree : List String := ["fac:1", "fac:2", "fac:3"]

/-- A two-facility component with no attribute nodes. -/
def compTwo : List String := ["fac:1", "fac:2"]

/-- One join row with positive revenue and visits, for the z-score guard
witness. -/
def rowPos : FinJoinRow := ⟨1, some 100, some 4⟩

/-! ## Helper lemmas -/

/-- A string is falsy exactly when it is empty. -/
theorem pyTruthy_false_iff (s : String) : pyTruthy s = false ↔ s = "" := by
  obtain ⟨l⟩ := s
  simp [pyTruthy, String.toList, List.isEmpty_iff, String.ext_iff]

/-! ## Claim theorems -/

/-- C5: a facility's pseudo-label is 1 iff at least 2 of the 3 detectors
flag it; `agreement_count` is the number of flagging detectors, at most 3;
exactly 2 flags give count 2 and label 1; 0 or 1 flags give label 0. -/
theorem C5_pseudo_label_majority (p1 p2 p3 : Bool) :
    (y_pseudo p1 p2 p3 = 1 ↔ 2 ≤ agreement_count p1 p2 p3) ∧
    agreement_count p1 p2 p3 ≤ 3 ∧
    (agreement_count p1 p2 p3 = 2 →
      agreement_count p1 p2 p3 = 2 ∧ y_pseudo p1 p2 p3 = 1) ∧
    (agreement_count p1 p2 p3 ≤ 1 → y_pseudo p1 p2 p3 = 0) := by
  cases p1 <;> cases p2 <;> cases p3 <;> decide

/-- C9: `save_fraud_alerts` leaves every row whose status differs from
`'new'` unchanged, and after the rewrite the `'new'` rows are exactly the
current run's alerts. -/
theorem C9_alert_table_rewrite (table : List AlertRow) (high : List HighAlert)
    (margins : List MarginAlert) :
    (save_fraud_alerts table high margins).filter (fun r => r.status != "new") =
      table.filter (fun r => r.status != "new") ∧
    (save_fraud_alerts table high margins).filter (fun r => r.status == "new") =
      high.map mkHighRow ++ margins.map mkMarginRow := by
  have hh1 : (high.map mkHighRow).filter (fun r => r.status != "new") = [] := by
    rw [List.filter_eq_nil_iff]
    intro r hr
    obtain ⟨a, _, rfl⟩ := List.mem_map.mp hr
    simp [mkHighRow]
  have hm1 : (margins.map mkMarginRow).filter (fun r => r.status != "new") = [] := by
    rw [List.filter_eq_nil_iff]
    intro r hr
    obtain ⟨a, _, rfl⟩ := List.mem_map.mp hr
    simp [mkMarginRow]
  have ht1 : (table.filter (fun r => r.status != "new")).filter
      (fun r => r.status != "new") = table.filter (fun r => r.status != "new") := by
    rw [List.filter_filter]
    simp
  have hh2 : (high.map mkHighRow).filter (fun r => r.status == "new") =
      high.map mkHighRow := by
    rw [List.filter_eq_self]
    intro r hr
    obtain ⟨a, _, rfl⟩ := List.mem_map.mp hr
    simp [mkHighRow]
  have hm2 : (margins.map mkMarginRow).filter (fun r => r.status == "new") =
      margins.map mkMarginRow := by
    rw [List.filter_eq_self]
    intro r hr
    obtain ⟨a, _, rfl⟩ := List.mem_map.mp hr
    simp [mkMarginRow]
  have ht2 : (table.filter (fun r => r.status != "new")).filter
      (fun r => r.status == "new") = [] := by
    rw [List.filter_filter]
    rw [List.filter_eq_nil_iff]
    intro r _
    simp
  constructor
  · simp [save_fraud_alerts, List.filter_append, hh1, hm1, ht1]
  · simp [save_fraud_alerts, List.filter_append, hh2, hm2, ht2]

/-- C10: whitespace-only components survive into the address key as empty
components — two facilities with different whitespace-only street
addresses and the same city and zip share one address node — while an
all-whitespace key joins to the empty string and `build_network` then
creates no address node or edge. -/
theorem C10_whitespace_address_keys :
    normalize_address (some " ") (some "LA") (some "90001") = some "|la|90001" ∧
    normalize_address (some "  ") (some "LA") (some "90001") = some "|la|90001" ∧
    (" " : String) ≠ "  " ∧
    ("fac:1", "addr:|la|90001") ∈ networkEdges [facW1, facW2] ∧
    ("fac:2", "addr:|la|90001") ∈ networkEdges [facW1, facW2] ∧
    normalize_address (some " ") none none = some "" ∧
    networkNodes [facW3] = ["fac:3"] ∧
    networkEdges [facW3] = [] := by decide

/-- C7 fails as stated: the zip component is stripped and truncated but
not lower-cased, so on zip `"ABCDE"` the code keeps the capitals while the
claim's description lower-cases them. -/
theorem C7_counterexample :
    normalize_address none none (some "ABCDE") = some "ABCDE" ∧
    normalize_address_claim none none (some "ABCDE") = some "abcde" ∧
    normalize_address none none (some "ABCDE") ≠
      normalize_address_claim none none (some "ABCDE") := by decide

/-- C7 amended: `normalize_address` lower-cases and trims the present
address and city components, strips and truncates the zip to 5 characters
without lower-casing it, joins the present components with `"|"`, and
returns null exactly when all three inputs are empty; whenever the zip is
absent it agrees with the claim's original description. -/
theorem C7_amended_normalize_address (a c z : Option String) :
    normalize_address a c z = normalize_address_amended a c z ∧
    (normalize_address a c z = none ↔
      (a = none ∨ a = some "") ∧ (c = none ∨ c = some "") ∧
      (z = none ∨ z = some "")) ∧
    normalize_address a c none = normalize_address_claim a c none := by
  refine ⟨rfl, ?_, rfl⟩
  rcases a with _ | sa <;> rcases c with _ | sc <;> rcases z with _ | sz <;>
    simp [normalize_address, ← pyTruthy_false_iff]

/-- Every fetched record of the outlier query has a strictly positive
revenue-per-visit ratio. -/
theorem mkHRRecord_pos {r : FinJoinRow} {rec : HRRecord}
    (h : mkHRRecord r = some rec) : 0 < rec.revenue_per_visit := by
  unfold mkHRRecord at h
  rcases hr : r.revenue with _ | rev <;> rcases hv : r.visits with _ | vis <;>
      rw [hr, hv] at h <;> simp only [] at h
  · exact absurd h (by simp)
  · exact absurd h (by simp)
  · exact absurd h (by simp)
  · split at h
    · rename_i hc
      cases h
      exact div_pos hc.1 (by exact_mod_cast hc.2)
    · exact absurd h (by simp)

/-- C6: when the positive-revenue, positive-visit population has fewer
than 2 members, or its revenue-per-visit values have zero variance,
`detect_high_revenue_low_patients` flags nothing. -/
theorem C6_zscore_guard (sqrtQ : ℚ → ℚ) (hsq : sqrtQ 0 = 0) (threshold : ℚ)
    (hthr : 0 ≤ threshold) (rows : List FinJoinRow)
    (hguard : (hrRecords rows).length < 2 ∨
      sampleVariance ((hrRecords rows).map (fun r => r.revenue_per_visit)) = 0) :
    detect_high_revenue_low_patients sqrtQ threshold rows = [] := by
  have hfil : ((hrRecords rows).map (fun r => r.revenue_per_visit)).filter
      (fun x => x ≠ 0) = (hrRecords rows).map (fun r => r.revenue_per_visit) := by
    rw [List.filter_eq_self]
    intro x hx
    obtain ⟨rec, hrec, rfl⟩ := List.mem_map.mp hx
    obtain ⟨row, _, hrow⟩ := List.mem_filterMap.mp hrec
    simpa using ne_of_gt (mkHRRecord_pos hrow)
  have hst : (if 1 < (((hrRecords rows).map (fun r => r.revenue_per_visit)).filter
        (fun x => x ≠ 0)).length then
      sqrtQ (sampleVariance (((hrRecords rows).map (fun r => r.revenue_per_visit)).filter
        (fun x => x ≠ 0))) else 0) = 0 := by
    rw [hfil]
    rcases hguard with hlen | hvar
    · rw [if_neg]
      simp only [List.length_map]
      omega
    · split
      · rw [hvar, hsq]
      · rfl
  have hnt : ¬ threshold < |(0 : ℚ)| := by simpa using hthr
  simp only [detect_high_revenue_low_patients]
  split
  · rfl
  · split
    · rfl
    · rw [hst]
      have hnt' : ¬ threshold < (0 : ℚ) := not_lt.mpr hthr
      simp [lt_self_iff_false, hnt', ite_self, sortByZDesc]
      rw [List.filterMap_eq_nil_iff.mpr (fun a _ => rfl)]
      rfl

/-- The high-revenue factor is at least 1. -/
theorem one_le_hrf (data : String → NodeData) (comp : List String) :
    1 ≤ high_revenue_factor data comp := by
  unfold high_revenue_factor
  split_ifs <;> norm_num

/-- The negative-income factor is at least 1. -/
theorem one_le_nif (data : String → NodeData) (comp : List String) :
    1 ≤ negative_income_factor data comp := by
  unfold negative_income_factor
  split_ifs <;> norm_num

/-- C8: with equal `shared_types`, equal revenue factor and equal income
factor, a cluster with strictly more facilities scores at least as high. -/
theorem C8_score_monotone (d1 d2 : String → NodeData) (c1 c2 : List String)
    (hst : shared_types c1 = shared_types c2)
    (hhrf : high_revenue_factor d1 c1 = high_revenue_factor d2 c2)
    (hnif : negative_income_factor d1 c1 = negative_income_factor d2 c2)
    (hfac : (facMembers c2).length < (facMembers c1).length) :
    clusterScore d2 c2 ≤ clusterScore d1 c1 := by
  unfold clusterScore
  rw [← hst, ← hhrf, ← hnif]
  have hB : (0:ℚ) ≤ high_revenue_factor d1 c1 :=
    le_trans zero_le_one (one_le_hrf d1 c1)
  have hC : (0:ℚ) ≤ negative_income_factor d1 c1 :=
    le_trans zero_le_one (one_le_nif d1 c1)
  have hn : ((facMembers c2).length : ℚ) ≤ ((facMembers c1).length : ℚ) := by
    exact_mod_cast le_of_lt hfac
  gcongr

/-- C8 witness: a 3-facility cluster with no shared attributes and no
financial data outscores the 2-facility one. -/
theorem C8_score_monotone_witness :
    clusterScore dataNone compTwo ≤ clusterScore dataNone compThree :=
  C8_score_monotone dataNone dataNone compThree compTwo (by decide) (by decide)
    (by decide) (by decide)

/-- C6 witness: a single positive row produces no alerts. -/
theorem C6_zscore_guard_witness :
    detect_high_revenue_low_patients id 2 [rowPos] = [] :=
  C6_zscore_guard id rfl 2 (by norm_num) [rowPos] (Or.inl (by decide))

/-- A list is a prefix of itself followed by anything. -/
theorem isPrefixOf_append_self (l t : List Char) : l.isPrefixOf (l ++ t) = true := by
  induction l with
  | nil => simp [List.isPrefixOf]
  | cons c cs ih => simp [List.isPrefixOf, ih]

/-- The character list of an appended string. -/
theorem toList_append (p a : String) : (p ++ a).toList = p.toList ++ a.toList := by
  obtain ⟨pl⟩ := p
  obtain ⟨al⟩ := a
  rfl

/-- A string starts with anything it extends. -/
theorem pyStarts_append (p a : String) : pyStarts (p ++ a) p = true := by
  unfold pyStarts
  rw [toList_append]
  exact isPrefixOf_append_self _ _

/-- Strings extending incompatible prefixes differ. -/
theorem append_prefix_ne {pa pb : String} (a b : String)
    (h2 : pyStarts (pb ++ b) pa = false) : pa ++ a ≠ pb ++ b := by
  intro h
  have h1 : pyStarts (pa ++ a) pa = true := pyStarts_append pa a
  rw [h, h2] at h1
  exact absurd h1 (by simp)

/-- String append is left-cancellative. -/
theorem string_append_left_cancel {p a b : String} (h : p ++ a = p ++ b) :
    a = b := by
  obtain ⟨pl⟩ := p
  obtain ⟨al⟩ := a
  obtain ⟨bl⟩ := b
  have hd : pl ++ al = pl ++ bl := congrArg String.data h
  have h2 : al = bl := List.append_cancel_left hd
  rw [h2]

/-- A facility key node is `"fac:" ++ id`. -/
theorem facKey_shape {f : Facility} {n : String} (h : facKey f = some n) :
    ∃ i, n = "fac:" ++ i := by
  unfold facKey at h
  rcases hid : f.id with _ | i <;> rw [hid] at h <;> simp only [] at h
  · exact absurd h (by simp)
  · by_cases ht : pyTruthy i = true
    · rw [if_pos ht] at h
      exact ⟨i, (Option.some.inj h).symm⟩
    · rw [if_neg ht] at h
      exact absurd h (by simp)

/-- An owner node a record contributes is `"owner:" ++ value`. -/
theorem ownerNodeOf_shape {f : Facility} {n : String}
    (h : ownerNodeOf f = some n) : ∃ o, n = "owner:" ++ o := by
  unfold ownerNodeOf at h
  rcases hb : normalize_text f.businessName with _ | o <;> rw [hb] at h <;>
    simp only [] at h
  · exact absurd h (by simp)
  · exact ⟨o, (Option.some.inj h).symm⟩

/-- An admin node a record contributes is `"admin:" ++ value` for a value
containing `'@'`. -/
theorem adminNodeOf_shape {f : Facility} {n : String}
    (h : adminNodeOf f = some n) :
    ∃ a, n = "admin:" ++ a ∧ pyHasChar a '@' = true := by
  unfold adminNodeOf at h
  rcases hb : normalize_text f.contactEmail with _ | a <;> rw [hb] at h <;>
    simp only [] at h
  · exact absurd h (by simp)
  · by_cases hat : pyHasChar a '@' = true
    · rw [if_pos hat] at h
      exact ⟨a, (Option.some.inj h).symm, hat⟩
    · rw [if_neg hat] at h
      exact absurd h (by simp)

/-- A phone node a record contributes is `"phone:" ++ value`. -/
theorem phoneNodeOf_shape {f : Facility} {n : String}
    (h : phoneNodeOf f = some n) : ∃ p, n = "phone:" ++ p := by
  unfold phoneNodeOf at h
  rcases hb : normalize_phone f.phone with _ | p <;> rw [hb] at h <;>
    simp only [] at h
  · exact absurd h (by simp)
  · exact ⟨p, (Option.some.inj h).symm⟩

/-- An address node a record contributes is `"addr:" ++ key` for a truthy
(non-empty) key. -/
theorem addrNodeOf_shape {f : Facility} {n : String}
    (h : addrNodeOf f = some n) :
    ∃ ad, n = "addr:" ++ ad ∧ pyTruthy ad = true := by
  unfold addrNodeOf at h
  rcases hb : normalize_address f.address f.city f.zip with _ | ad <;>
    rw [hb] at h <;> simp only [] at h
  · exact absurd h (by simp)
  · by_cases htr : pyTruthy ad = true
    · rw [if_pos htr] at h
      exact ⟨ad, (Option.some.inj h).symm, htr⟩
    · rw [if_neg htr] at h
      exact absurd h (by simp)

/-- A record with an `'@'`-less admin value contributes no admin node and
no admin edge for it. -/
theorem no_admin_contribution (f : Facility) (a : String)
    (hat : ¬ pyHasChar a '@' = true) :
    ("admin:" ++ a) ∉ facilityNodeList f ∧
    ∀ x, (x, "admin:" ++ a) ∉ facilityEdgeList f := by
  have hattr : ("admin:" ++ a) ∉ (ownerNodeOf f).toList ++
      (adminNodeOf f).toList ++ (phoneNodeOf f).toList ++
      (addrNodeOf f).toList := by
    intro hmem
    simp only [List.mem_append, Option.mem_toList, Option.mem_def] at hmem
    rcases hmem with ((ho | hadm) | hp) | had
    · obtain ⟨o, ho2⟩ := ownerNodeOf_shape ho
      exact @append_prefix_ne "admin:" "owner:" a o rfl ho2
    · obtain ⟨a', ha2, hat'⟩ := adminNodeOf_shape hadm
      rw [← string_append_left_cancel ha2] at hat'
      exact hat hat'
    · obtain ⟨p, hp2⟩ := phoneNodeOf_shape hp
      exact @append_prefix_ne "admin:" "phone:" a p rfl hp2
    · obtain ⟨d, hd2, _⟩ := addrNodeOf_shape had
      exact @append_prefix_ne "admin:" "addr:" a d rfl hd2
  constructor
  · intro hmem
    unfold facilityNodeList at hmem
    rcases hk : facKey f with _ | fk <;> rw [hk] at hmem
    · exact absurd hmem (by simp)
    · rcases List.mem_cons.mp hmem with heq | hmem2
      · obtain ⟨i, hi⟩ := facKey_shape hk
        rw [hi] at heq
        exact @append_prefix_ne "admin:" "fac:" a i rfl heq
      · exact hattr hmem2
  · intro x hmem
    unfold facilityEdgeList at hmem
    rcases hk : facKey f with _ | fk <;> rw [hk] at hmem
    · exact absurd hmem (by simp)
    · obtain ⟨att, hatt, heq⟩ := List.mem_map.mp hmem
      have hsnd : att = "admin:" ++ a := congrArg Prod.snd heq
      rw [hsnd] at hatt
      exact hattr hatt

/-- A record whose address key is empty (falsy) contributes no address
node and no address edge for it. -/
theorem no_addr_contribution (f : Facility) (ad : String)
    (htr : ¬ pyTruthy ad = true) :
    ("addr:" ++ ad) ∉ facilityNodeList f ∧
    ∀ x, (x, "addr:" ++ ad) ∉ facilityEdgeList f := by
  have hattr : ("addr:" ++ ad) ∉ (ownerNodeOf f).toList ++
      (adminNodeOf f).toList ++ (phoneNodeOf f).toList ++
      (addrNodeOf f).toList := by
    intro hmem
    simp only [List.mem_append, Option.mem_toList, Option.mem_def] at hmem
    rcases hmem with ((ho | hadm) | hp) | had
    · obtain ⟨o, ho2⟩ := ownerNodeOf_shape ho
      exact @append_prefix_ne "addr:" "owner:" ad o rfl ho2
    · obtain ⟨a', ha2⟩ := adminNodeOf_shape hadm
      exact @append_prefix_ne "addr:" "admin:" ad a' rfl ha2.1
    · obtain ⟨p, hp2⟩ := phoneNodeOf_shape hp
      exact @append_prefix_ne "addr:" "phone:" ad p rfl hp2
    · obtain ⟨d, hd2, htr'⟩ := addrNodeOf_shape had
      rw [← string_append_left_cancel hd2] at htr'
      exact htr htr'
  constructor
  · intro hmem
    unfold facilityNodeList at hmem
    rcases hk : facKey f with _ | fk <;> rw [hk] at hmem
    · exact absurd hmem (by simp)
    · rcases List.mem_cons.mp hmem with heq | hmem2
      · obtain ⟨i, hi⟩ := facKey_shape hk
        rw [hi] at heq
        exact @append_prefix_ne "addr:" "fac:" ad i rfl heq
      · exact hattr hmem2
  · intro x hmem
    unfold facilityEdgeList at hmem
    rcases hk : facKey f with _ | fk <;> rw [hk] at hmem
    · exact absurd hmem (by simp)
    · obtain ⟨att, hatt, heq⟩ := List.mem_map.mp hmem
      have hsnd : att = "addr:" ++ ad := congrArg Prod.snd heq
      rw [hsnd] at hatt
      exact hattr hatt

/-- No graph built by `build_network` holds an admin node (or edge) for a
value without `'@'`. -/
theorem no_admin_in_network (facilities : List Facility) (a : String)
    (hat : ¬ pyHasChar a '@' = true) :
    ("admin:" ++ a) ∉ networkNodes facilities ∧
    ∀ x, (x, "admin:" ++ a) ∉ networkEdges facilities := by
  constructor
  · intro hmem
    obtain ⟨f, _, hn⟩ := List.mem_flatMap.mp hmem
    exact (no_admin_contribution f a hat).1 hn
  · intro x hmem
    obtain ⟨f, _, hn⟩ := List.mem_flatMap.mp hmem
    exact (no_admin_contribution f a hat).2 x hn

/-- No graph built by `build_network` holds an address node (or edge) for
an empty (falsy) key. -/
theorem no_addr_in_network (facilities : List Facility) (ad : String)
    (htr : ¬ pyTruthy ad = true) :
    ("addr:" ++ ad) ∉ networkNodes facilities ∧
    ∀ x, (x, "addr:" ++ ad) ∉ networkEdges facilities := by
  constructor
  · intro hmem
    obtain ⟨f, _, hn⟩ := List.mem_flatMap.mp hmem
    exact (no_addr_contribution f ad htr).1 hn
  · intro x hmem
    obtain ⟨f, _, hn⟩ := List.mem_flatMap.mp hmem
    exact (no_addr_contribution f ad htr).2 x hn

/-- C2 fails as stated: a contact email that normalizes without an `'@'`
(here `"abc"`) yields no admin edge, and an address key that normalizes to
the empty string yields no address edge. -/
theorem C2_counterexample : ¬ allFourTypesEdgeClaim [facBad] := by
  intro h
  have h2 := (h facBad (by simp) "9" rfl (by decide)).2.1 "abc" (by decide)
  exact absurd h2 (by decide)

/-- C2 amended: for every facility with a present id, a non-null
normalized owner or phone value always yields its attribute node and
edge; an admin value yields them **if and only if** it contains `'@'` (no
graph ever holds an admin node or edge for an `'@'`-less value); an
address key yields them **if and only if** it is non-empty (an empty key
creates no address node or edge anywhere in the graph). -/
theorem C2_amended_edges (facilities : List Facility) (f : Facility)
    (hf : f ∈ facilities) (i : String) (hid : f.id = some i)
    (hti : pyTruthy i) :
    (∀ o, normalize_text f.businessName = some o →
      ("owner:" ++ o) ∈ networkNodes facilities ∧
      ("fac:" ++ i, "owner:" ++ o) ∈ networkEdges facilities) ∧
    (∀ a, normalize_text f.contactEmail = some a → pyHasChar a '@' →
      ("admin:" ++ a) ∈ networkNodes facilities ∧
      ("fac:" ++ i, "admin:" ++ a) ∈ networkEdges facilities) ∧
    (∀ p, normalize_phone f.phone = some p →
      ("phone:" ++ p) ∈ networkNodes facilities ∧
      ("fac:" ++ i, "phone:" ++ p) ∈ networkEdges facilities) ∧
    (∀ ad, normalize_address f.address f.city f.zip = some ad → pyTruthy ad →
      ("addr:" ++ ad) ∈ networkNodes facilities ∧
      ("fac:" ++ i, "addr:" ++ ad) ∈ networkEdges facilities) ∧
    (∀ a, ¬ pyHasChar a '@' = true →
      ("admin:" ++ a) ∉ networkNodes facilities ∧
      ∀ x, (x, "admin:" ++ a) ∉ networkEdges facilities) ∧
    (∀ ad, ¬ pyTruthy ad = true →
      ("addr:" ++ ad) ∉ networkNodes facilities ∧
      ∀ x, (x, "addr:" ++ ad) ∉ networkEdges facilities) := by
  have hfk : facKey f = some ("fac:" ++ i) := by
    unfold facKey
    rw [hid]
    simp [hti]
  refine ⟨?_, ?_, ?_, ?_, ?_, ?_⟩
  · intro o ho
    have hnode : ownerNodeOf f = some ("owner:" ++ o) := by
      unfold ownerNodeOf
      rw [ho]
    exact ⟨List.mem_flatMap.mpr ⟨f, hf, by simp [facilityNodeList, hfk, hnode]⟩,
      List.mem_flatMap.mpr ⟨f, hf, by simp [facilityEdgeList, hfk, hnode]⟩⟩
  · intro a ha hat
    have hnode : adminNodeOf f = some ("admin:" ++ a) := by
      unfold adminNodeOf
      rw [ha]
      simp [hat]
    exact ⟨List.mem_flatMap.mpr ⟨f, hf, by simp [facilityNodeList, hfk, hnode]⟩,
      List.mem_flatMap.mpr ⟨f, hf, by simp [facilityEdgeList, hfk, hnode]⟩⟩
  · intro p hp
    have hnode : phoneNodeOf f = some ("phone:" ++ p) := by
      unfold phoneNodeOf
      rw [hp]
    exact ⟨List.mem_flatMap.mpr ⟨f, hf, by simp [facilityNodeList, hfk, hnode]⟩,
      List.mem_flatMap.mpr ⟨f, hf, by simp [facilityEdgeList, hfk, hnode]⟩⟩
  · intro ad had htr
    have hnode : addrNodeOf f = some ("addr:" ++ ad) := by
      unfold addrNodeOf
      rw [had]
      simp [htr]
    exact ⟨List.mem_flatMap.mpr ⟨f, hf, by simp [facilityNodeList, hfk, hnode]⟩,
      List.mem_flatMap.mpr ⟨f, hf, by simp [facilityEdgeList, hfk, hnode]⟩⟩
  · exact fun a hat => no_admin_in_network facilities a hat
  · exact fun ad htr => no_addr_in_network facilities ad htr

/-- C2 amended witness: a facility carrying all four linkable attributes
gets all four nodes and edges, while an `'@'`-less admin value and the
empty address key get no node. -/
theorem C2_amended_edges_witness :
    (("owner:acme corp") ∈ networkNodes [facFull] ∧
      ("fac:1", "owner:acme corp") ∈ networkEdges [facFull]) ∧
    (("admin:a@b.com") ∈ networkNodes [facFull] ∧
      ("fac:1", "admin:a@b.com") ∈ networkEdges [facFull]) ∧
    (("phone:4155550199") ∈ networkNodes [facFull] ∧
      ("fac:1", "phone:4155550199") ∈ networkEdges [facFull]) ∧
    (("addr:1 main st|la|90001") ∈ networkNodes [facFull] ∧
      ("fac:1", "addr:1 main st|la|90001") ∈ networkEdges [facFull]) ∧
    ("admin:" ++ "abc") ∉ networkNodes [facFull] ∧
    ("addr:" ++ "") ∉ networkNodes [facFull] :=
  let h := C2_amended_edges [facFull] facFull (by decide) "1" rfl (by decide)
  ⟨h.1 "acme corp" (by decide),
   h.2.1 "a@b.com" (by decide) (by decide),
   h.2.2.1 "4155550199" (by decide),
   h.2.2.2.1 "1 main st|la|90001" (by decide) (by decide),
   (h.2.2.2.2.1 "abc" (by decide)).1,
   (h.2.2.2.2.2 "" (by decide)).1⟩

/-- Node-list membership only depends on the multiset of input records. -/
theorem networkNodes_perm {l1 l2 : List Facility} (h : l1.Perm l2)
    (n : String) : n ∈ networkNodes l1 ↔ n ∈ networkNodes l2 := by
  unfold networkNodes
  simp only [List.mem_flatMap]
  constructor <;> rintro ⟨f, hf, hn⟩
  · exact ⟨f, h.mem_iff.mp hf, hn⟩
  · exact ⟨f, h.mem_iff.mpr hf, hn⟩

/-- Edge-list membership only depends on the multiset of input records. -/
theorem networkEdges_perm {l1 l2 : List Facility} (h : l1.Perm l2)
    (e : String × String) : e ∈ networkEdges l1 ↔ e ∈ networkEdges l2 := by
  unfold networkEdges
  simp only [List.mem_flatMap]
  constructor <;> rintro ⟨f, hf, he⟩
  · exact ⟨f, h.mem_iff.mp hf, he⟩
  · exact ⟨f, h.mem_iff.mpr hf, he⟩

/-- The undirected step relation only depends on the record multiset. -/
theorem stepRel_perm {l1 l2 : List Facility} (h : l1.Perm l2) :
    stepRel l1 = stepRel l2 := by
  funext a b
  apply propext
  unfold stepRel
  rw [networkEdges_perm h (a, b), networkEdges_perm h (b, a)]

/-- C4: permuting the input facility records leaves the node set, the edge
set and the connected-component partition unchanged. -/
theorem C4_order_independence (l1 l2 : List Facility) (h : l1.Perm l2) :
    (∀ n, n ∈ networkNodes l1 ↔ n ∈ networkNodes l2) ∧
    (∀ e, e ∈ networkEdges l1 ↔ e ∈ networkEdges l2) ∧
    componentPartition l1 = componentPartition l2 := by
  refine ⟨networkNodes_perm h, networkEdges_perm h, ?_⟩
  have hreach : reach l1 = reach l2 := by
    unfold reach
    rw [stepRel_perm h]
  have hcomp : componentOf l1 = componentOf l2 := by
    funext n
    unfold componentOf
    rw [hreach]
  unfold componentPartition
  ext C
  simp only [Set.mem_setOf_eq, hcomp]
  constructor <;> rintro ⟨n, hn, rfl⟩
  · exact ⟨n, (networkNodes_perm h n).mp hn, rfl⟩
  · exact ⟨n, (networkNodes_perm h n).mpr hn, rfl⟩

/-- C4 witness: swapping two owner-sharing records keeps the partition. -/
theorem C4_order_independence_witness :
    componentPartition [facA, facB] = componentPartition [facB, facA] :=
  (C4_order_independence [facA, facB] [facB, facA]
    (List.Perm.swap facB facA [])).2.2

/-- Set cardinality of a filtered component equals the filtered list
length when the component list has no duplicates. -/
theorem toFinset_filter_card (comp : List String) (p : String → Bool)
    (h : comp.Nodup) :
    (comp.toFinset.filter (fun n => p n)).card = (comp.filter p).length := by
  rw [← List.toFinset_filter]
  exact List.toFinset_card_of_nodup (h.filter p)

/-- Summing over a filtered component set equals summing the filtered
list when the component list has no duplicates. -/
theorem toFinset_filter_sum (comp : List String) (p : String → Bool)
    (f : String → Int) (h : comp.Nodup) :
    (comp.toFinset.filter (fun n => p n)).sum f = ((comp.filter p).map f).sum := by
  rw [← List.toFinset_filter]
  exact List.sum_toFinset f (h.filter p)

/-- The claim's facility-set cardinality is the code's list length. -/
theorem facCardSpec_eq (comp : List String) (h : comp.Nodup) :
    facCardSpec comp = (facMembers comp).length :=
  toFinset_filter_card comp _ h

/-- The claim's attribute-set cardinality is the code's list length. -/
theorem attrCardSpec_eq (comp : List String) (p : String) (h : comp.Nodup) :
    attrCardSpec comp p = (comp.filter (fun n => pyStarts n p)).length :=
  toFinset_filter_card comp _ h

/-- The code's `shared_types` agrees with the claim's set-cardinality
formulation on duplicate-free components. -/
theorem shared_types_eq (comp : List String) (h : comp.Nodup) :
    shared_types comp = sharedTypesSpec comp := by
  unfold shared_types sharedTypesSpec
  rw [attrCardSpec_eq comp "phone:" h, attrCardSpec_eq comp "addr:" h,
    attrCardSpec_eq comp "admin:" h, facCardSpec_eq comp h]
  simp only [phoneMembers, addrMembers, adminMembers, facMembers,
    Nat.pos_iff_ne_zero]

/-- Dropping the zero revenues does not change the revenue sum. -/
theorem clusterRevenues_sum (data : String → NodeData) (comp : List String) :
    (clusterRevenues data comp).sum =
      ((facMembers comp).map (fun n => ((data n).revenue).getD 0)).sum := by
  unfold clusterRevenues
  generalize facMembers comp = l
  induction l with
  | nil => rfl
  | cons n t ih =>
    rcases hr : (data n).revenue with _ | r
    · simp [List.filterMap_cons, hr, ih]
    · by_cases h0 : r = 0 <;> simp [List.filterMap_cons, hr, h0, ih]

/-- Dropping the zero visit counts does not change the visit sum. -/
theorem clusterVisits_sum (data : String → NodeData) (comp : List String) :
    (clusterVisits data comp).sum =
      ((facMembers comp).map (fun n => ((data n).visits).getD 0)).sum := by
  unfold clusterVisits
  generalize facMembers comp = l
  induction l with
  | nil => rfl
  | cons n t ih =>
    rcases hr : (data n).visits with _ | r
    · simp [List.filterMap_cons, hr, ih]
    · by_cases h0 : r = 0 <;> simp [List.filterMap_cons, hr, h0, ih]

/-- The code's cluster revenue total is the claim's nulls-as-0 sum. -/
theorem total_revenue_eq (data : String → NodeData) (comp : List String)
    (h : comp.Nodup) :
    total_revenue data comp = totalRevenueSpec data comp := by
  unfold total_revenue totalRevenueSpec
  rw [clusterRevenues_sum, toFinset_filter_sum comp _ _ h]
  rfl

/-- The code's cluster visit total is the claim's nulls-as-0 sum. -/
theorem total_visits_eq (data : String → NodeData) (comp : List String)
    (h : comp.Nodup) :
    total_visits data comp = totalVisitsSpec data comp := by
  unfold total_visits totalVisitsSpec
  rw [clusterVisits_sum, toFinset_filter_sum comp _ _ h]
  rfl

/-- The code's any-negative-net-income test agrees with the claim's
existence of a member facility with negative net income. -/
theorem hasNeg_any_iff (data : String → NodeData) (comp : List String) :
    (clusterNetIncomes data comp).any (fun ni => ni < 0) = true ↔
      hasNegIncomeSpec data comp = true := by
  unfold clusterNetIncomes hasNegIncomeSpec
  constructor
  · intro hany
    obtain ⟨x, hx, hneg⟩ := List.any_eq_true.mp hany
    obtain ⟨n, hn, hsome⟩ := List.mem_filterMap.mp hx
    have hmem := List.mem_filter.mp hn
    refine List.any_eq_true.mpr ⟨n, hmem.1, ?_⟩
    rw [Bool.and_eq_true]
    refine ⟨hmem.2, ?_⟩
    rw [hsome]
    simpa using hneg
  · intro hspec
    obtain ⟨n, hn, hp⟩ := List.any_eq_true.mp hspec
    rw [Bool.and_eq_true] at hp
    rcases hm : (data n).net_income with _ | v
    · rw [hm] at hp
      simp at hp
    · rw [hm] at hp
      have hneg : v < 0 := by simpa using hp.2
      exact List.any_eq_true.mpr ⟨v,
        List.mem_filterMap.mpr ⟨n, List.mem_filter.mpr ⟨hn, hp.1⟩, hm⟩,
        by simpa using hneg⟩

/-- The two negative-income tests agree as booleans. -/
theorem any_eq_hasNeg (data : String → NodeData) (comp : List String) :
    (clusterNetIncomes data comp).any (fun ni => ni < 0) =
      hasNegIncomeSpec data comp := by
  have hiff := hasNeg_any_iff data comp
  cases hA : (clusterNetIncomes data comp).any (fun ni => ni < 0) <;>
    cases hS : hasNegIncomeSpec data comp <;> simp_all

/-- The code's negative-income factor equals the claim's. -/
theorem nif_eq (data : String → NodeData) (comp : List String) :
    negative_income_factor data comp = nifSpec data comp := by
  unfold negative_income_factor nifSpec
  by_cases hs : hasNegIncomeSpec data comp = true
  · have hany := (hasNeg_any_iff data comp).mpr hs
    have hne : clusterNetIncomes data comp ≠ [] := by
      intro hnil
      rw [hnil] at hany
      simp at hany
    rw [if_pos ⟨hne, hany⟩, if_pos hs]
  · have hany : ¬ ((clusterNetIncomes data comp).any (fun ni => ni < 0) = true) :=
      fun hh => hs ((hasNeg_any_iff data comp).mp hh)
    rw [if_neg (fun hc => hany hc.2), if_neg hs]

/-- The code's high-revenue factor equals the claim's. -/
theorem hrf_eq (data : String → NodeData) (comp : List String)
    (h : comp.Nodup) :
    high_revenue_factor data comp = hrfSpec data comp := by
  unfold high_revenue_factor hrfSpec
  rw [← total_revenue_eq data comp h]

/-- The code's cluster score equals the claim's formula on duplicate-free
components. -/
theorem clusterScore_eq (data : String → NodeData) (comp : List String)
    (h : comp.Nodup) :
    clusterScore data comp = scoreSpec data comp := by
  unfold clusterScore scoreSpec
  rw [shared_types_eq comp h, facCardSpec_eq comp h, hrf_eq data comp h,
    nif_eq data comp]

/-- C1: a component with fewer than 2 facility nodes is never scored; one
with at least 2 gets a RiskScore entry exactly when the claim's score
formula exceeds 3, and the recorded score is that formula. -/
theorem C1_cluster_scoring (data : String → NodeData) (comp : List String)
    (h : comp.Nodup) :
    (facCardSpec comp < 2 → scoreCluster data comp = none) ∧
    (2 ≤ facCardSpec comp →
      ((scoreCluster data comp).isSome ↔ 3 < scoreSpec data comp)) ∧
    (∀ rs, scoreCluster data comp = some rs →
      rs.score = scoreSpec data comp) := by
  have hfc := facCardSpec_eq comp h
  have hsc := clusterScore_eq data comp h
  refine ⟨?_, ?_, ?_⟩
  · intro hlt
    unfold scoreCluster
    rw [if_pos (by omega)]
  · intro hge
    unfold scoreCluster
    rw [if_neg (by omega)]
    have h3' : 3 < clusterScore data comp ↔ 3 < scoreSpec data comp := by
      rw [hsc]
    by_cases h3 : 3 < clusterScore data comp
    · rw [if_pos h3]
      simp [h3'.mp h3]
    · rw [if_neg h3]
      have hns : ¬ 3 < scoreSpec data comp := fun hh => h3 (h3'.mpr hh)
      simp [hns]
  · intro rs hrs
    unfold scoreCluster at hrs
    split_ifs at hrs
    injection hrs with hrs
    rw [← hrs]
    exact hsc

/-- C1 witness: the 3-facility, 1-phone component is scored and the entry
condition coincides with the claim formula. -/
theorem C1_cluster_scoring_witness :
    2 ≤ facCardSpec comp3 ∧
      ((scoreCluster data3 comp3).isSome ↔ 3 < scoreSpec data3 comp3) :=
  ⟨by decide, (C1_cluster_scoring data3 comp3 (by decide)).2.1 (by decide)⟩

/-- The truthy revenues as a filtered-then-mapped list. -/
theorem clusterRevenues_eq_filter (data : String → NodeData)
    (comp : List String) :
    clusterRevenues data comp =
      ((facMembers comp).filter (fun n => (data n).revenue.getD 0 ≠ 0)).map
        (fun n => (data n).revenue.getD 0) := by
  unfold clusterRevenues
  generalize facMembers comp = l
  induction l with
  | nil => rfl
  | cons n t ih =>
    rcases hr : (data n).revenue with _ | r
    · simp [List.filterMap_cons, List.filter_cons, hr, ih]
    · by_cases h0 : r = 0 <;>
        simp [List.filterMap_cons, List.filter_cons, hr, h0, ih]

/-- The code's `avg_revenue` equals the amended claim's mean over non-null
non-zero revenues. -/
theorem avg_revenue_eq (data : String → NodeData) (comp : List String)
    (h : comp.Nodup) :
    avg_revenue data comp = avgRevenueAmended data comp := by
  have hl : clusterRevenues data comp =
      ((comp.filter (fun n => pyStarts n "fac:" &&
        ((data n).revenue.getD 0 ≠ 0))).map (fun n => (data n).revenue.getD 0)) := by
    rw [clusterRevenues_eq_filter]
    unfold facMembers
    rw [List.filter_filter]
    exact congrArg _ (List.filter_congr (fun a _ => by
      rw [Bool.and_comm]))
  have hcard : (truthyRevFacs data comp).card = (clusterRevenues data comp).length := by
    rw [hl, List.length_map]
    exact toFinset_filter_card comp _ h
  have hsum : (truthyRevFacs data comp).sum (fun n => (data n).revenue.getD 0) =
      (clusterRevenues data comp).sum := by
    rw [hl]
    exact toFinset_filter_sum comp _ _ h
  unfold avg_revenue avgRevenueAmended total_revenue
  by_cases hnil : clusterRevenues data comp = []
  · rw [if_pos hnil, if_pos (by rw [hcard, hnil]; rfl)]
  · rw [if_neg hnil, if_neg (by
      rw [hcard]
      simpa [List.length_eq_zero] using hnil)]
    rw [hcard, hsum]

/-- The concrete cluster's score evaluates to 4.5. -/
theorem clusterScore_data3 : clusterScore data3 comp3 = 9/2 := by
  unfold clusterScore
  rw [show (facMembers comp3).length = 3 from by decide,
    show shared_types comp3 = 1 from by decide,
    show high_revenue_factor data3 comp3 = 1 from by decide,
    show negative_income_factor data3 comp3 = 1 from by decide]
  norm_num

/-- The concrete cluster's code-side mean revenue evaluates to 10. -/
theorem avg_revenue_data3 : avg_revenue data3 comp3 = 10 := by
  have hrev : clusterRevenues data3 comp3 = [10] := by decide
  unfold avg_revenue total_revenue
  rw [hrev]
  norm_num

/-- The concrete cluster is scored and its emitted entry is `rs3`. -/
theorem scoreCluster_data3 : scoreCluster data3 comp3 = some rs3 := by
  unfold scoreCluster
  rw [if_neg (by decide : ¬ (facMembers comp3).length < 2),
    if_pos (by rw [clusterScore_data3]; norm_num)]
  rw [clusterScore_data3, avg_revenue_data3,
    show total_revenue data3 comp3 = 10 from by decide,
    show total_visits data3 comp3 = 0 from by decide]
  rfl

/-- C3 fails as stated: with member revenues (0, 10, null) the emitted
entry's `avg_revenue` is 10 — the zero revenue is excluded — while the
claim's mean over non-null revenues is 5. -/
theorem C3_counterexample :
    (scoreCluster data3 comp3).map RiskScore.avg_revenue = some 10 ∧
    avgRevenueClaim data3 comp3 = 5 ∧
    (scoreCluster data3 comp3).map RiskScore.avg_revenue ≠
      some (avgRevenueClaim data3 comp3) := by
  have hnn : nonNullRevenues data3 comp3 = [0, 10] := by decide
  have hclaim : avgRevenueClaim data3 comp3 = 5 := by
    unfold avgRevenueClaim
    rw [hnn, if_neg (by simp)]
    norm_num [List.sum_cons, List.sum_nil]
  refine ⟨by rw [scoreCluster_data3]; rfl, hclaim, ?_⟩
  rw [scoreCluster_data3, hclaim]
  simp [rs3]

/-- C3 amended: every emitted entry carries the nulls-as-0 revenue and
visit sums, the mean over **non-null non-zero** revenues, and the
existence of a member facility with negative net income. -/
theorem C3_amended_aggregates (data : String → NodeData) (comp : List String)
    (h : comp.Nodup) (rs : RiskScore)
    (hrs : scoreCluster data comp = some rs) :
    rs.total_revenue = totalRevenueSpec data comp ∧
    rs.avg_revenue = avgRevenueAmended data comp ∧
    rs.total_visits = totalVisitsSpec data comp ∧
    rs.has_negative_income = hasNegIncomeSpec data comp := by
  unfold scoreCluster at hrs
  split_ifs at hrs
  injection hrs with hrs
  rw [← hrs]
  exact ⟨total_revenue_eq data comp h, avg_revenue_eq data comp h,
    total_visits_eq data comp h, any_eq_hasNeg data comp⟩

/-- C3 amended witness: the concrete 3-facility cluster's aggregates. -/
theorem C3_amended_aggregates_witness :
    rs3.total_revenue = totalRevenueSpec data3 comp3 ∧
    rs3.avg_revenue = avgRevenueAmended data3 comp3 ∧
    rs3.total_visits = totalVisitsSpec data3 comp3 ∧
    rs3.has_negative_income = hasNegIncomeSpec data3 comp3 :=
  C3_amended_aggregates data3 comp3 (by decide) rs3 scoreCluster_data3

end Hippocratic
